import Mathlib

/-
  Verification of the GameService CRUD-and-reporting surface of the
  vault-games-api repository (src/src/games/game.service.ts).

  The two document-store collections (games, users) are modelled as lists of
  records.  Operations that can throw return `Except GameError`.  JavaScript
  string truthiness is modelled explicitly (the empty string is falsy), and a
  JS field access on a document that lacks the field yields `none`
  (JavaScript `undefined`).
-/

namespace VaultGames

/-- A stored User document (src/user): only `_id`, `nome`, `picture` are read
by the game service's enrichment join. -/
structure StoredUser where
  _id : String
  nome : String
  picture : String
  deriving DecidableEq, Repr

/-- A stored Game document.  `status` and `updatedBy` are optional fields of
the document (absent is modelled as `none`); `updatedAt` is a timestamp. -/
structure StoredGame where
  _id : String
  nome : String
  description : String
  image : String
  userId : String
  status : Option String
  updatedAt : Nat
  updatedBy : Option String
  deriving DecidableEq, Repr

/-- Modelled from the spec: the CreateGameDto carries `nome`, `description`,
`image`, `userId` (strings, where the empty string stands for a missing or
falsy value), an optional `status` and an optional `updatedBy` (the DTO file
is not under src/; fields are those the service reads plus the spec's data
model). -/
structure CreateGameDto where
  nome : String
  description : String
  image : String
  userId : String
  status : Option String
  updatedBy : Option String
  deriving DecidableEq, Repr

/-- A `Partial<CreateGameDto>`: every field may be absent. -/
structure UpdateGameDto where
  nome : Option String
  description : Option String
  image : Option String
  userId : Option String
  status : Option String
  updatedBy : Option String
  deriving DecidableEq, Repr

/-- The kinds of exception the service can raise: `badRequest` is Nest's
BadRequestException (the spec's InvalidInput), `notFound` its
NotFoundException, `typeError` a raw JavaScript TypeError, `storeError` an
unwrapped failure coming from the store driver. -/
inductive GameError where
  | badRequest (msg : String)
  | notFound (msg : String)
  | typeError (msg : String)
  | storeError (msg : String)
  deriving DecidableEq, Repr

/-- JavaScript `String(x)` for a possibly-undefined string value. -/
def jsString : Option String → String
  | some s => s
  | none => "undefined"

/-- The JavaScript object key produced by `acc[game._id]` in the status
distribution: a missing `status` groups under BSON null, whose object key is
the string "null". -/
def jsKey : Option String → String
  | some s => s
  | none => "null"

/-- game.service.ts line 179/197: the status whitelist. -/
def validStatuses : List String := ["Pendente", "Progresso", "Pausado", "Completo"]

/-- The status enum check of `create` and `update`:
`dto.status && !validStatuses.includes(dto.status)` — fires only when the
supplied status is truthy (present and non-empty) and not in the whitelist. -/
def invalidStatus : Option String → Bool
  | none => false
  | some s => (decide (s ≠ "")) && !(validStatuses.contains s)

/-- `findByUser` (game.service.ts lines 29-38): filter `{ userId }`, with
`filter.status = status` added only when `status` is truthy. -/
def findByUser (st : List StoredGame) (userId : String) (status : Option String) :
    List StoredGame :=
  match status with
  | some s =>
      if s = "" then st.filter (fun g => decide (g.userId = userId))
      else st.filter (fun g => decide (g.userId = userId ∧ g.status = some s))
  | none => st.filter (fun g => decide (g.userId = userId))

/-- `findById` (lines 40-49): throws NotFoundException when no document
matches. -/
def findById (st : List StoredGame) (id : String) : Except GameError StoredGame :=
  match st.find? (fun g => decide (g._id = id)) with
  | none => Except.error (GameError.notFound ("Game with id: " ++ id ++ " not found"))
  | some g => Except.ok g

/-- The projected record returned by the two recently-updated queries.
`userId` is `Option` because `getLastGamesUpdatedByUser` omits it from its
projection, so reading it afterwards yields JavaScript `undefined`. -/
structure ProjGame where
  _id : String
  nome : String
  updatedAt : Nat
  updatedBy : Option String
  image : String
  userId : Option String
  deriving DecidableEq, Repr

/-- Projection of `getLastGamesUpdated` (line 58):
`{ _id, nome, updatedAt, updatedBy, userId, image }`. -/
def projectAll (g : StoredGame) : ProjGame :=
  { _id := g._id, nome := g.nome, updatedAt := g.updatedAt,
    updatedBy := g.updatedBy, image := g.image, userId := some g.userId }

/-- Projection of `getLastGamesUpdatedByUser` (line 130):
`{ _id, nome, updatedAt, updatedBy, image }` — `userId` is NOT projected. -/
def projectByUser (g : StoredGame) : ProjGame :=
  { _id := g._id, nome := g.nome, updatedAt := g.updatedAt,
    updatedBy := g.updatedBy, image := g.image, userId := none }

/-- The `user` field attached by the enrichment: either a summary object with
exactly the fields id, name, picture, or the literal string "Unknown". -/
inductive UserInfo where
  | known (id : String) (name : String) (picture : String)
  | unknown
  deriving DecidableEq, Repr

/-- A game as returned by the two recently-updated operations: the projected
document spread together with the attached `user` field. -/
structure EnrichedGame where
  game : ProjGame
  user : UserInfo
  deriving DecidableEq, Repr

/-- Mongo's `.sort(\x7b updatedAt: -1 \x7d)`: descending order of `updatedAt`. -/
def updGE (a b : ProjGame) : Prop := b.updatedAt ≤ a.updatedAt

instance : DecidableRel updGE :=
  fun a b => inferInstanceAs (Decidable (b.updatedAt ≤ a.updatedAt))

instance : IsTotal ProjGame updGE :=
  ⟨fun a b => Nat.le_total b.updatedAt a.updatedAt⟩

instance : IsTrans ProjGame updGE :=
  ⟨fun _ _ _ hab hbc => Nat.le_trans hbc hab⟩

/-- Sorting descending by `updatedAt`. -/
def sortDesc (gs : List ProjGame) : List ProjGame := List.insertionSort updGE gs

/-- The user fetch of the enrichment (lines 71-74 / 143-146):
`userModel.find(\x7b _id: \x7b $in: userIds \x7d \x7d)` where `userIds` is the
list of `userId` values read off the projected page.  A `$in` element that is
JavaScript `undefined` (a `none` here) matches no stored user. -/
def fetchedUsers (users : List StoredUser) (gs : List ProjGame) : List StoredUser :=
  users.filter (fun u => (gs.map (fun g => g.userId)).contains (some u._id))

/-- The shared enrichment map (lines 76-90 and 148-162): attach to each game
the fetched user found by `String(user._id) === String(game.userId)`, or the
string "Unknown" when there is none. -/
def enrich (users : List StoredUser) (gs : List ProjGame) : List EnrichedGame :=
  gs.map (fun g =>
    { game := g,
      user :=
        match (fetchedUsers users gs).find? (fun u => decide (u._id = jsString g.userId)) with
        | some u => UserInfo.known u._id u.nome u.picture
        | none => UserInfo.unknown })

/-- The page fetched by `getLastGamesUpdated` (lines 55-63): all games,
projected, sorted descending by `updatedAt`, limited to 5. -/
def topFive (st : List StoredGame) : List ProjGame :=
  (sortDesc (st.map projectAll)).take 5

/-- The success path of `getLastGamesUpdated` (lines 51-93): return [] when
the page is empty, else enrich it. -/
def lastGamesCore (st : List StoredGame) (users : List StoredUser) : List EnrichedGame :=
  if (topFive st).isEmpty then [] else enrich users (topFive st)

/-- `getLastGamesUpdated` (lines 51-100).  `storeFail` injects a failure of
the underlying store query; the surrounding try/catch turns any such failure
into a generic BadRequestException. -/
def getLastGamesUpdated (st : List StoredGame) (users : List StoredUser)
    (storeFail : Option String) : Except GameError (List EnrichedGame) :=
  match storeFail with
  | some _ =>
      Except.error (GameError.badRequest "Error fetching games. Please try again later.")
  | none => Except.ok (lastGamesCore st users)

/-- The page fetched by `getLastGamesUpdatedByUser` (lines 127-135): one
user's games, projected WITHOUT `userId`, sorted descending, limited to 5. -/
def topFiveByUser (st : List StoredGame) (userId : String) : List ProjGame :=
  (sortDesc ((st.filter (fun g => decide (g.userId = userId))).map projectByUser)).take 5

/-- The success path of `getLastGamesUpdatedByUser` (lines 125-166). -/
def lastGamesByUserCore (st : List StoredGame) (users : List StoredUser)
    (userId : String) : List EnrichedGame :=
  if (topFiveByUser st userId).isEmpty then [] else enrich users (topFiveByUser st userId)

/-- `getLastGamesUpdatedByUser` (lines 125-166): no try/catch, so a store
failure propagates unwrapped. -/
def getLastGamesUpdatedByUser (st : List StoredGame) (users : List StoredUser)
    (userId : String) (storeFail : Option String) : Except GameError (List EnrichedGame) :=
  match storeFail with
  | some e => Except.error (GameError.storeError e)
  | none => Except.ok (lastGamesByUserCore st users userId)

/-- The `$match \x7b userId \x7d` stage of the aggregation (line 106). -/
def userGames (st : List StoredGame) (userId : String) : List StoredGame :=
  st.filter (fun g => decide (g.userId = userId))

/-- The distinct group ids produced by `$group \x7b _id: $status \x7d`
(lines 107-112), as JavaScript object keys. -/
def distKeys (st : List StoredGame) (userId : String) : List String :=
  ((userGames st userId).map (fun g => jsKey g.status)).dedup

/-- `getGameDistributionByUser` (lines 102-123): aggregate
`$match \x7b userId \x7d` then `$group` by `$status` with `$sum: 1`, folded
into an object keyed by the group id (here an association list). -/
def getGameDistributionByUser (st : List StoredGame) (userId : String) :
    List (String × Nat) :=
  (distKeys st userId).map
    (fun k => (k, ((userGames st userId).filter (fun g => decide (jsKey g.status = k))).length))

/-- The required-field loop of `create` (lines 171-177): the first of
`nome`, `description`, `image`, `userId` that is falsy, if any. -/
def requiredFieldError (dto : CreateGameDto) : Option String :=
  if dto.nome = "" then some "nome"
  else if dto.description = "" then some "description"
  else if dto.image = "" then some "image"
  else if dto.userId = "" then some "userId"
  else none

/-- The document persisted by `new this.gameModel(createGameDto)` followed by
`save()` (lines 185-186): the DTO's fields with a store-assigned id and
timestamp. -/
def newGameFrom (newId : String) (now : Nat) (dto : CreateGameDto) : StoredGame :=
  { _id := newId, nome := dto.nome, description := dto.description,
    image := dto.image, userId := dto.userId, status := dto.status,
    updatedAt := now, updatedBy := dto.updatedBy }

/-- `create` (lines 168-189): required-field check, status enum check, then
persist.  `now` is the store-assigned timestamp and `newId` the assigned id;
returns the new collection state together with the saved game. -/
def create (st : List StoredGame) (now : Nat) (newId : String) (dto : CreateGameDto) :
    Except GameError (List StoredGame × StoredGame) :=
  match requiredFieldError dto with
  | some f => Except.error (GameError.badRequest ("Missing required field: " ++ f))
  | none =>
      if invalidStatus dto.status then
        Except.error (GameError.badRequest ("Invalid status: " ++ jsString dto.status))
      else
        Except.ok (st ++ [newGameFrom newId now dto], newGameFrom newId now dto)

/-- The document produced by `findByIdAndUpdate(id, \x7b ...dto, updatedAt:
new Date() \x7d)`: each supplied field overwrites the stored one, `updatedAt`
is re-stamped. -/
def applyUpdate (g : StoredGame) (dto : UpdateGameDto) (now : Nat) : StoredGame :=
  { _id := g._id,
    nome := dto.nome.getD g.nome,
    description := dto.description.getD g.description,
    image := dto.image.getD g.image,
    userId := dto.userId.getD g.userId,
    status := match dto.status with | some s => some s | none => g.status,
    updatedAt := now,
    updatedBy := match dto.updatedBy with | some s => some s | none => g.updatedBy }

/-- `update` (lines 191-216): status enum check, then findByIdAndUpdate with
`\x7b new: true \x7d`; a missing id surfaces as BadRequestException. -/
def update (st : List StoredGame) (now : Nat) (id : String) (dto : UpdateGameDto) :
    Except GameError (List StoredGame × StoredGame) :=
  if invalidStatus dto.status then
    Except.error (GameError.badRequest ("Invalid status: " ++ jsString dto.status))
  else
    match st.find? (fun g => decide (g._id = id)) with
    | none => Except.error (GameError.badRequest ("Game with id: " ++ id ++ " not found"))
    | some g =>
        let g2 := applyUpdate g dto now
        Except.ok (st.map (fun x => if x._id = id then g2 else x), g2)

/-- `remove` (lines 218-223): `findByIdAndDelete` followed by a log of
`removedGame._id`.  When no document matches, `removedGame` is null and the
template literal dereferences it, so the call rejects with a TypeError. -/
def remove (st : List StoredGame) (id : String) :
    Except GameError (List StoredGame × StoredGame) :=
  match st.find? (fun g => decide (g._id = id)) with
  | none =>
      Except.error (GameError.typeError "Cannot read properties of null (reading _id)")
  | some g => Except.ok (st.eraseP (fun x => decide (x._id = id)), g)

/-- A concrete stored user, used to instantiate theorems. -/
def uA : StoredUser := { _id := "u1", nome := "Alice", picture := "pic1" }

/-- A concrete stored game owned by `uA`. -/
def gA : StoredGame :=
  { _id := "g1", nome := "Zelda", description := "d1", image := "i1",
    userId := "u1", status := some "Pendente", updatedAt := 10, updatedBy := none }

/-- A second concrete stored game owned by `uA`. -/
def gB : StoredGame :=
  { _id := "g2", nome := "Mario", description := "d2", image := "i2",
    userId := "u1", status := some "Pendente", updatedAt := 20, updatedBy := none }

/-- A third concrete stored game owned by `uA`. -/
def gC : StoredGame :=
  { _id := "g3", nome := "Halo", description := "d3", image := "i3",
    userId := "u1", status := some "Completo", updatedAt := 30, updatedBy := none }

/-- A concrete stored game owned by a different user. -/
def gD : StoredGame :=
  { _id := "g4", nome := "Doom", description := "d4", image := "i4",
    userId := "u2", status := some "Progresso", updatedAt := 40, updatedBy := none }

/-- The empty partial update (a no-op update). -/
def emptyUpdate : UpdateGameDto :=
  { nome := none, description := none, image := none, userId := none,
    status := none, updatedBy := none }

/-- C1 counterexample: on a state with no game of the requested id, `remove`
does fail — `findByIdAndDelete` yields null and the subsequent log of
`removedGame._id` dereferences it — contradicting the claim that `remove`
does not fail on a missing id. -/
theorem remove_missing_id_rejects :
    remove ([] : List StoredGame) "g1" =
      Except.error (GameError.typeError "Cannot read properties of null (reading _id)") := rfl

/-- C1 (amended): for every id, when a Game with that id exists, `remove`
deletes it and returns the deleted record's prior state; when no Game with
that id exists, `remove` fails with a TypeError (a null dereference while
logging the removed id) rather than returning an undefined/empty result. -/
theorem remove_deletes_and_returns_prior (st : List StoredGame) (id : String)
    (g : StoredGame) (h : st.find? (fun x => decide (x._id = id)) = some g) :
    remove st id = Except.ok (st.eraseP (fun x => decide (x._id = id)), g) ∧
    (∀ st2 : List StoredGame, st2.find? (fun x => decide (x._id = id)) = none →
      remove st2 id =
        Except.error (GameError.typeError "Cannot read properties of null (reading _id)")) := by
  constructor
  · unfold remove; rw [h]
  · intro st2 h2; unfold remove; rw [h2]

/-- C1 witness: the amended theorem instantiated on a one-game state. -/
theorem remove_deletes_and_returns_prior_witness :
    remove [gA] "g1" = Except.ok ([gA].eraseP (fun x => decide (x._id = "g1")), gA) ∧
    remove ([gB] : List StoredGame) "g1" =
      Except.error (GameError.typeError "Cannot read properties of null (reading _id)") := by
  have h := remove_deletes_and_returns_prior [gA] "g1" gA (by decide)
  exact ⟨h.1, h.2 [gB] (by decide)⟩

/-- C5: for every id with no existing Game record, `update` fails with
InvalidInput (a BadRequestException — the not-found condition is signaled as
invalid input), while `findById` on the same missing id fails with
NotFound. -/
theorem update_missing_id_invalid_input (st : List StoredGame) (now : Nat)
    (id : String) (dto : UpdateGameDto)
    (h : st.find? (fun g => decide (g._id = id)) = none) :
    (∃ m, update st now id dto = Except.error (GameError.badRequest m)) ∧
    findById st id =
      Except.error (GameError.notFound ("Game with id: " ++ id ++ " not found")) := by
  constructor
  · unfold update
    by_cases hs : invalidStatus dto.status
    · exact ⟨_, by rw [if_pos hs]⟩
    · exact ⟨_, by rw [if_neg hs, h]⟩
  · unfold findById; rw [h]

/-- C5 witness: the theorem instantiated on the empty state. -/
theorem update_missing_id_invalid_input_witness :
    (∃ m, update ([] : List StoredGame) 7 "nope" emptyUpdate =
      Except.error (GameError.badRequest m)) ∧
    findById ([] : List StoredGame) "nope" =
      Except.error (GameError.notFound ("Game with id: " ++ "nope" ++ " not found")) :=
  update_missing_id_invalid_input [] 7 "nope" emptyUpdate (by decide)

/-- C6: a failure of the underlying store query is wrapped by
`getLastGamesUpdated` into the generic try-again-later BadRequestException
(the original error is not surfaced), whereas `getLastGamesUpdatedByUser`
propagates the same failure unchanged. -/
theorem store_failure_asymmetry (st : List StoredGame) (users : List StoredUser)
    (uid e : String) :
    getLastGamesUpdated st users (some e) =
      Except.error (GameError.badRequest "Error fetching games. Please try again later.") ∧
    getLastGamesUpdatedByUser st users uid (some e) =
      Except.error (GameError.storeError e) :=
  ⟨rfl, rfl⟩

/-- C9: `findByUser` with a (non-empty) status returns exactly the games of
that user with exactly that status; with no status it returns all of that
user's games regardless of status; both return the empty sequence when
nothing matches.  (A status value is one of the four non-empty enum strings;
the hypothesis only excludes the empty string, which JavaScript treats as
falsy.) -/
theorem findByUser_exact (st : List StoredGame) (uid s : String) (hs : s ≠ "") :
    (∀ g, g ∈ findByUser st uid (some s) ↔ g ∈ st ∧ g.userId = uid ∧ g.status = some s) ∧
    (∀ g, g ∈ findByUser st uid none ↔ g ∈ st ∧ g.userId = uid) ∧
    ((∀ g ∈ st, ¬(g.userId = uid ∧ g.status = some s)) → findByUser st uid (some s) = []) ∧
    ((∀ g ∈ st, g.userId ≠ uid) → findByUser st uid none = []) := by
  simp only [findByUser]
  rw [if_neg hs]
  refine ⟨?_, ?_, ?_, ?_⟩
  · intro g; simp [List.mem_filter]
  · intro g; simp [List.mem_filter]
  · intro h; exact List.filter_eq_nil_iff.mpr (by simpa using h)
  · intro h; exact List.filter_eq_nil_iff.mpr (by simpa using h)

/-- C9 witness: on a four-game state, filtering user u1 by status Pendente
keeps exactly the two Pendente games of u1. -/
theorem findByUser_exact_witness :
    (gB ∈ findByUser [gA, gB, gC, gD] "u1" (some "Pendente") ↔
      gB ∈ [gA, gB, gC, gD] ∧ gB.userId = "u1" ∧ gB.status = some "Pendente") ∧
    (gC ∈ findByUser [gA, gB, gC, gD] "u1" none ↔
      gC ∈ [gA, gB, gC, gD] ∧ gC.userId = "u1") :=
  ⟨(findByUser_exact [gA, gB, gC, gD] "u1" "Pendente" (by decide)).1 gB,
   (findByUser_exact [gA, gB, gC, gD] "u1" "Pendente" (by decide)).2.1 gC⟩

/-- A create input whose `status` is the supplied but falsy empty string. -/
def dtoEmptyStatus : CreateGameDto :=
  { nome := "a", description := "b", image := "c", userId := "u1",
    status := some "", updatedBy := none }

/-- A fully valid create input. -/
def dtoFull : CreateGameDto :=
  { nome := "Zelda", description := "d1", image := "i1", userId := "u1",
    status := some "Pendente", updatedBy := some "Alice" }

/-- A create input missing `nome`. -/
def dtoNoNome : CreateGameDto :=
  { nome := "", description := "d1", image := "i1", userId := "u1",
    status := none, updatedBy := none }

/-- A create input with the invalid status "Bogus". -/
def dtoBogus : CreateGameDto :=
  { nome := "Zelda", description := "d1", image := "i1", userId := "u1",
    status := some "Bogus", updatedBy := none }

/-- C4 counterexample: the empty string is a supplied status that is not one
of the four enum values, yet `create` does not fail on it — the check
`dto.status && ...` skips falsy statuses — so the claim as stated is false
at this input. -/
theorem create_empty_status_not_rejected :
    dtoEmptyStatus.status = some "" ∧ "" ∉ validStatuses ∧
    create [] 0 "id1" dtoEmptyStatus =
      Except.ok ([newGameFrom "id1" 0 dtoEmptyStatus], newGameFrom "id1" 0 dtoEmptyStatus) :=
  ⟨rfl, by decide, rfl⟩

/-- C4 (amended): `create` fails with InvalidInput naming the offending field
when any of `nome`, `description`, `image`, `userId` is missing/falsy, or
when a supplied NON-EMPTY status is not one of Pendente, Progresso, Pausado,
Completo; on every other input it persists a new Game and returns it. -/
theorem create_validates_and_persists (st : List StoredGame) (now : Nat)
    (nid : String) (dto : CreateGameDto) :
    (requiredFieldError dto = none ↔
      (dto.nome ≠ "" ∧ dto.description ≠ "" ∧ dto.image ≠ "" ∧ dto.userId ≠ "")) ∧
    (∀ f, requiredFieldError dto = some f →
      create st now nid dto =
        Except.error (GameError.badRequest ("Missing required field: " ++ f))) ∧
    (∀ s, requiredFieldError dto = none → dto.status = some s → s ≠ "" →
      s ∉ validStatuses →
      create st now nid dto =
        Except.error (GameError.badRequest ("Invalid status: " ++ s))) ∧
    (requiredFieldError dto = none → invalidStatus dto.status = false →
      create st now nid dto =
        Except.ok (st ++ [newGameFrom nid now dto], newGameFrom nid now dto)) := by
  refine ⟨?_, ?_, ?_, ?_⟩
  · unfold requiredFieldError
    split_ifs with h1 h2 h3 h4 <;> simp_all
  · intro f hf; unfold create; rw [hf]
  · intro s h0 hs hne hnot
    have hinv : invalidStatus dto.status = true := by
      rw [hs]; simp [invalidStatus, hne, List.elem_iff, hnot]
    unfold create; rw [h0, if_pos hinv, hs]; rfl
  · intro h0 h1; unfold create; rw [h0, h1]; simp

/-- C4 witness: the amended theorem instantiated on a missing field, on the
status "Bogus" and on a fully valid input. -/
theorem create_validates_and_persists_witness :
    create [] 5 "id9" dtoNoNome =
      Except.error (GameError.badRequest ("Missing required field: " ++ "nome")) ∧
    create [] 5 "id9" dtoBogus =
      Except.error (GameError.badRequest ("Invalid status: " ++ "Bogus")) ∧
    create [] 5 "id9" dtoFull =
      Except.ok ([newGameFrom "id9" 5 dtoFull], newGameFrom "id9" 5 dtoFull) :=
  ⟨(create_validates_and_persists [] 5 "id9" dtoNoNome).2.1 "nome" (by decide),
   (create_validates_and_persists [] 5 "id9" dtoBogus).2.2.1 "Bogus" (by decide)
     (by decide) (by decide) (by decide),
   (create_validates_and_persists [] 5 "id9" dtoFull).2.2.2 (by decide) (by decide)⟩

/-- C7: on an existing Game id, when the supplied status (if any) is valid,
`update` applies exactly the supplied fields plus a fresh `updatedAt`
timestamp to that record; an empty partial input still refreshes
`updatedAt`. -/
theorem update_applies_partial_fields (st : List StoredGame) (now : Nat)
    (id : String) (dto : UpdateGameDto) (g : StoredGame)
    (hfind : st.find? (fun x => decide (x._id = id)) = some g)
    (hs : dto.status = none ∨ ∃ s, dto.status = some s ∧ s ∈ validStatuses) :
    update st now id dto =
      Except.ok (st.map (fun x => if x._id = id then applyUpdate g dto now else x),
        applyUpdate g dto now) ∧
    (applyUpdate g dto now).updatedAt = now ∧
    (applyUpdate g dto now)._id = g._id ∧
    (applyUpdate g dto now).nome = dto.nome.getD g.nome ∧
    (applyUpdate g dto now).description = dto.description.getD g.description ∧
    (applyUpdate g dto now).image = dto.image.getD g.image ∧
    (applyUpdate g dto now).userId = dto.userId.getD g.userId ∧
    (dto.status = none → (applyUpdate g dto now).status = g.status) ∧
    (∀ s, dto.status = some s → (applyUpdate g dto now).status = some s) ∧
    (dto = emptyUpdate → applyUpdate g dto now = { g with updatedAt := now }) := by
  have hinv : invalidStatus dto.status = false := by
    rcases hs with h | ⟨s, h, hmem⟩
    · rw [h]; rfl
    · rw [h]; simp [invalidStatus, List.elem_iff, hmem]
  refine ⟨?_, rfl, rfl, rfl, rfl, rfl, rfl, ?_, ?_, ?_⟩
  · unfold update; rw [if_neg (by simp [hinv]), hfind]
  · intro h; simp [applyUpdate, h]
  · intro s h; simp [applyUpdate, h]
  · intro h; subst h; rfl

/-- C7 witness: a no-op update of `gA` refreshes only `updatedAt`. -/
theorem update_applies_partial_fields_witness :
    update [gA] 99 "g1" emptyUpdate =
      Except.ok ([gA].map (fun x => if x._id = "g1" then applyUpdate gA emptyUpdate 99 else x),
        applyUpdate gA emptyUpdate 99) ∧
    applyUpdate gA emptyUpdate 99 = { gA with updatedAt := 99 } :=
  ⟨(update_applies_partial_fields [gA] 99 "g1" emptyUpdate gA (by decide)
      (Or.inl rfl)).1,
   (update_applies_partial_fields [gA] 99 "g1" emptyUpdate gA (by decide)
      (Or.inl rfl)).2.2.2.2.2.2.2.2.2 rfl⟩

/-- C10: in both `create` and `update`, the status enum check raises
InvalidInput if and only if the supplied status is truthy (present and
non-empty) and not one of the four enum values; a falsy supplied status (the
empty string) skips validation entirely and is passed through to the store
unrejected. -/
theorem status_check_iff_truthy_invalid (st : List StoredGame) (now : Nat)
    (nid id : String) (dto : CreateGameDto) (dtoU : UpdateGameDto) (g : StoredGame)
    (hreq : requiredFieldError dto = none)
    (hfind : st.find? (fun x => decide (x._id = id)) = some g) :
    (∀ s : Option String,
      invalidStatus s = true ↔ ∃ v, s = some v ∧ v ≠ "" ∧ v ∉ validStatuses) ∧
    ((∃ m, create st now nid dto = Except.error (GameError.badRequest m)) ↔
      invalidStatus dto.status = true) ∧
    ((∃ m, update st now id dtoU = Except.error (GameError.badRequest m)) ↔
      invalidStatus dtoU.status = true) ∧
    (dto.status = some "" →
      create st now nid dto =
        Except.ok (st ++ [newGameFrom nid now dto], newGameFrom nid now dto) ∧
      (newGameFrom nid now dto).status = some "") ∧
    (dtoU.status = some "" →
      update st now id dtoU =
        Except.ok (st.map (fun x => if x._id = id then applyUpdate g dtoU now else x),
          applyUpdate g dtoU now) ∧
      (applyUpdate g dtoU now).status = some "") := by
  have hskip : ∀ s : Option String, s = some "" → invalidStatus s = false := by
    intro s h; rw [h]; rfl
  refine ⟨?_, ?_, ?_, ?_, ?_⟩
  · intro s
    cases s with
    | none => simp [invalidStatus]
    | some v => simp [invalidStatus, List.elem_iff]
  · constructor
    · intro ⟨m, hm⟩
      by_cases h : invalidStatus dto.status
      · exact h
      · exfalso; unfold create at hm; rw [hreq, if_neg (by simp [h])] at hm
        exact Except.noConfusion hm
    · intro h; unfold create; rw [hreq, if_pos h]; exact ⟨_, rfl⟩
  · constructor
    · intro ⟨m, hm⟩
      by_cases h : invalidStatus dtoU.status
      · exact h
      · exfalso; unfold update at hm; rw [if_neg (by simp [h]), hfind] at hm
        exact Except.noConfusion hm
    · intro h; unfold update; rw [if_pos h]; exact ⟨_, rfl⟩
  · intro h
    refine ⟨?_, by simp [newGameFrom, h]⟩
    unfold create; rw [hreq, if_neg (by simp [hskip dto.status h])]
  · intro h
    refine ⟨?_, by simp [applyUpdate, h]⟩
    unfold update; rw [if_neg (by simp [hskip dtoU.status h]), hfind]

/-- C10 witness: the iff instantiated on a valid create input over a
one-game state. -/
theorem status_check_iff_truthy_invalid_witness :
    (invalidStatus (some "Bogus") = true ↔
      ∃ v, some "Bogus" = some v ∧ v ≠ "" ∧ v ∉ validStatuses) ∧
    ((∃ m, create [gA] 3 "id2" dtoFull = Except.error (GameError.badRequest m)) ↔
      invalidStatus dtoFull.status = true) :=
  ⟨(status_check_iff_truthy_invalid [gA] 3 "id2" "g1" dtoFull emptyUpdate gA
      (by decide) (by decide)).1 (some "Bogus"),
   (status_check_iff_truthy_invalid [gA] 3 "id2" "g1" dtoFull emptyUpdate gA
      (by decide) (by decide)).2.1⟩

/-- Looking a key up in an association list built by pairing each key of a
list with a value computed from it. -/
theorem lookup_map_pair {β : Type} (f : String → β) (keys : List String) (k : String) :
    (keys.map (fun x => (x, f x))).lookup k = if k ∈ keys then some (f k) else none := by
  induction keys with
  | nil => simp
  | cons a t ih =>
      by_cases h : k = a
      · subst h; simp [List.lookup]
      · have hb : (k == a) = false := beq_eq_false_iff_ne.mpr h
        simp [List.lookup, ih, hb, h]

/-- In the distribution, the JavaScript key of a game's status equals an enum
value exactly when the status is that value (an absent status groups under
the key "null", which is not an enum value). -/
theorem jsKey_eq_status (g : StoredGame) (s : String) (hnull : s ≠ "null") :
    jsKey g.status = s ↔ g.status = some s := by
  cases h : g.status with
  | none => simp [jsKey]; intro he; exact absurd he.symm hnull
  | some v => simp [jsKey]

/-- C8: `getGameDistributionByUser` maps each status value to the number of
that user's games with that status, and a status with zero games for that
user is absent from the mapping rather than present with value 0. -/
theorem distribution_counts_by_status (st : List StoredGame) (uid s : String)
    (hs : s ∈ validStatuses) :
    (getGameDistributionByUser st uid).lookup s =
      (if (st.filter (fun g => decide (g.userId = uid ∧ g.status = some s))).length = 0
       then none
       else some (st.filter (fun g => decide (g.userId = uid ∧ g.status = some s))).length) := by
  have hnull : s ≠ "null" := by
    intro h; rw [h] at hs; revert hs; decide
  have hpred : ∀ g ∈ userGames st uid,
      (decide (jsKey g.status = s)) = (decide (g.status = some s)) := by
    intro g _; exact decide_eq_decide.mpr (jsKey_eq_status g s hnull)
  have hcount : ((userGames st uid).filter (fun g => decide (jsKey g.status = s))).length =
      (st.filter (fun g => decide (g.userId = uid ∧ g.status = some s))).length := by
    rw [List.filter_congr hpred]
    unfold userGames
    rw [List.filter_filter]
    congr 1
    apply List.filter_congr
    intro g _
    simp [Bool.and_comm]
  have hmem : s ∈ distKeys st uid ↔
      0 < (st.filter (fun g => decide (g.userId = uid ∧ g.status = some s))).length := by
    unfold distKeys
    rw [List.mem_dedup, ← hcount, ← List.countP_eq_length_filter,
      List.countP_pos_iff, List.mem_map]
    constructor
    · rintro ⟨g, hg, hk⟩; exact ⟨g, hg, by simpa using hk⟩
    · rintro ⟨g, hg, hk⟩; exact ⟨g, hg, by simpa using hk⟩
  unfold getGameDistributionByUser
  rw [lookup_map_pair]
  by_cases hin : s ∈ distKeys st uid
  · rw [if_pos hin, hcount,
      if_neg (Nat.pos_iff_ne_zero.mp (hmem.mp hin))]
  · rw [if_neg hin]
    have : (st.filter (fun g => decide (g.userId = uid ∧ g.status = some s))).length = 0 := by
      by_contra hlen
      exact hin (hmem.mpr (Nat.pos_of_ne_zero hlen))
    rw [if_pos this]

/-- C8 witness: the spec's example — a user with games of statuses
Pendente, Pendente, Completo — yields count 2 for Pendente, 1 for Completo
and no Progresso key. -/
theorem distribution_counts_by_status_witness :
    (getGameDistributionByUser [gA, gB, gC, gD] "u1").lookup "Pendente" = some 2 ∧
    (getGameDistributionByUser [gA, gB, gC, gD] "u1").lookup "Completo" = some 1 ∧
    (getGameDistributionByUser [gA, gB, gC, gD] "u1").lookup "Progresso" = none := by
  refine ⟨?_, ?_, ?_⟩
  · rw [distribution_counts_by_status [gA, gB, gC, gD] "u1" "Pendente" (by decide)]
    decide
  · rw [distribution_counts_by_status [gA, gB, gC, gD] "u1" "Completo" (by decide)]
    decide
  · rw [distribution_counts_by_status [gA, gB, gC, gD] "u1" "Progresso" (by decide)]
    decide

/-- Enrichment only attaches a `user` field; the underlying games are the
page itself. -/
theorem enrich_map_game (users : List StoredUser) (gs : List ProjGame) :
    (enrich users gs).map (fun e => e.game) = gs := by
  unfold enrich
  rw [List.map_map]
  exact List.map_id gs

/-- Each enriched game carries either the summary of a stored user or the
"Unknown" marker. -/
theorem enrich_user_known_or_unknown (users : List StoredUser) (gs : List ProjGame) :
    ∀ e ∈ enrich users gs,
      (∃ u ∈ users, e.user = UserInfo.known u._id u.nome u.picture) ∨
      e.user = UserInfo.unknown := by
  intro e he
  unfold enrich at he
  obtain ⟨g, hg, rfl⟩ := List.mem_map.mp he
  cases hfind : (fetchedUsers users gs).find? (fun u => decide (u._id = jsString g.userId)) with
  | none => right; simp [hfind]
  | some u =>
      left
      refine ⟨u, ?_, by simp [hfind]⟩
      have hu : u ∈ fetchedUsers users gs := List.mem_of_find?_eq_some hfind
      exact (List.mem_filter.mp hu).1

/-- The page kept by `topFive` is sorted descending by `updatedAt`. -/
theorem topFive_sorted (st : List StoredGame) : List.Pairwise updGE (topFive st) :=
  List.Pairwise.sublist (List.take_sublist 5 _)
    (List.sorted_insertionSort updGE (st.map projectAll))

/-- C3: `getLastGamesUpdated` succeeds with at most 5 games, sorted in
descending order of `updatedAt`, each carrying either a user summary with
exactly id, name and picture, or the string "Unknown"; on an empty games
collection it returns the empty sequence. -/
theorem recently_updated_shape (st : List StoredGame) (users : List StoredUser) :
    getLastGamesUpdated st users none = Except.ok (lastGamesCore st users) ∧
    (lastGamesCore st users).length ≤ 5 ∧
    List.Pairwise (fun a b : EnrichedGame => b.game.updatedAt ≤ a.game.updatedAt)
      (lastGamesCore st users) ∧
    (∀ e ∈ lastGamesCore st users,
      (∃ u ∈ users, e.user = UserInfo.known u._id u.nome u.picture) ∨
      e.user = UserInfo.unknown) ∧
    (st = [] → lastGamesCore st users = []) := by
  refine ⟨rfl, ?_, ?_, ?_, ?_⟩
  · unfold lastGamesCore
    by_cases h : (topFive st).isEmpty
    · simp [h]
    · rw [if_neg h]
      have hlen : (enrich users (topFive st)).length = (topFive st).length := by
        unfold enrich; exact List.length_map _ _
      rw [hlen]
      exact List.length_take_le 5 _
  · unfold lastGamesCore
    by_cases h : (topFive st).isEmpty
    · simp [h]
    · rw [if_neg h]
      have hp : List.Pairwise updGE (topFive st) := topFive_sorted st
      unfold enrich
      rw [List.pairwise_map]
      exact hp
  · unfold lastGamesCore
    by_cases h : (topFive st).isEmpty
    · simp [h]
    · rw [if_neg h]
      exact enrich_user_known_or_unknown users (topFive st)
  · intro h; subst h; rfl

/-- C3 witness: on a four-game state, the shape properties hold of a concrete
enriched element. -/
theorem recently_updated_shape_witness :
    (lastGamesCore [gA, gB, gC, gD] [uA]).length ≤ 5 ∧
    ((∃ u ∈ [uA], (EnrichedGame.mk (projectAll gD) UserInfo.unknown).user =
        UserInfo.known u._id u.nome u.picture) ∨
      (EnrichedGame.mk (projectAll gD) UserInfo.unknown).user = UserInfo.unknown) ∧
    lastGamesCore ([] : List StoredGame) [uA] = [] :=
  ⟨(recently_updated_shape [gA, gB, gC, gD] [uA]).2.1,
   (recently_updated_shape [gA, gB, gC, gD] [uA]).2.2.2.1
     (EnrichedGame.mk (projectAll gD) UserInfo.unknown) (by decide),
   (recently_updated_shape [] [uA]).2.2.2.2 rfl⟩

/-- Every game on the page of `getLastGamesUpdatedByUser` lacks `userId`:
the projection at line 130 omits it, so reading it yields undefined. -/
theorem topFiveByUser_userId_undefined (st : List StoredGame) (uid : String) :
    ∀ g ∈ topFiveByUser st uid, g.userId = none := by
  intro g hg
  have h1 : g ∈ sortDesc ((st.filter (fun x => decide (x.userId = uid))).map projectByUser) :=
    List.take_subset 5 _ hg
  have h2 : g ∈ (st.filter (fun x => decide (x.userId = uid))).map projectByUser :=
    (List.perm_insertionSort updGE _).mem_iff.mp h1
  obtain ⟨x, _, rfl⟩ := List.mem_map.mp h2
  rfl

/-- Consequently the `$in` user fetch of `getLastGamesUpdatedByUser` matches
no stored user at all. -/
theorem fetchedUsers_byUser_empty (st : List StoredGame) (users : List StoredUser)
    (uid : String) : fetchedUsers users (topFiveByUser st uid) = [] := by
  apply List.filter_eq_nil_iff.mpr
  intro u _
  intro hc
  have hmem : some u._id ∈ (topFiveByUser st uid).map (fun g => g.userId) :=
    List.elem_iff.mp hc
  obtain ⟨g, hg, hgu⟩ := List.mem_map.mp hmem
  rw [topFiveByUser_userId_undefined st uid g hg] at hgu
  exact Option.noConfusion hgu

/-- Every game returned by `getLastGamesUpdatedByUser` carries the string
"Unknown", whatever the users collection holds. -/
theorem byUser_enrichment_always_unknown (st : List StoredGame)
    (users : List StoredUser) (uid : String) :
    ∀ e ∈ lastGamesByUserCore st users uid, e.user = UserInfo.unknown := by
  intro e he
  unfold lastGamesByUserCore at he
  by_cases h : (topFiveByUser st uid).isEmpty
  · rw [if_pos h] at he; exact absurd he (List.not_mem_nil e)
  · rw [if_neg h] at he
    unfold enrich at he
    obtain ⟨g, _, rfl⟩ := List.mem_map.mp he
    rw [fetchedUsers_byUser_empty st users uid]
    rfl

/-- C2: `getLastGamesUpdatedByUser` does NOT receive the same enrichment as
`getLastGamesUpdated`.  On a state where game `gA` is owned by the existing
user `uA`, the all-games variant attaches uA's `\x7bid, name, picture\x7d`
summary, but the by-user variant returns "Unknown" for the very same game and
user: its projection omits `userId`, so the user lookup always misses. -/
theorem byUser_enrichment_diverges :
    uA ∈ [uA] ∧ gA.userId = uA._id ∧
    getLastGamesUpdated [gA] [uA] none =
      Except.ok [EnrichedGame.mk (projectAll gA)
        (UserInfo.known uA._id uA.nome uA.picture)] ∧
    getLastGamesUpdatedByUser [gA] [uA] "u1" none =
      Except.ok [EnrichedGame.mk (projectByUser gA) UserInfo.unknown] := by
  refine ⟨by decide, rfl, rfl, rfl⟩

end VaultGames
